import Mathlib

/-!
Verification of `server/certificate.go` of burp-awesome-tls: bootstrap and
persistence of a self-signed root Certificate Authority.

The Go program is embedded shallowly:

* the two persisted files (`ca.der`, `caKey.der`) and the process-wide serial
  counter form a `State`;
* outcomes of library calls that depend on the outside world
  (`rsa.GenerateKey`, marshalling, `os.WriteFile`, `time.Now`) are supplied by
  an explicit `Env`;
* DER byte blobs are modelled by their parse results (`CertBytes`,
  `KeyBytes`): `x509.CreateCertificate` always produces bytes that reparse to
  the structured certificate, while on-disk blobs may be malformed;
* Go's `time.Time` is modelled as seconds since the Unix epoch (`Int`), and
  `Time.AddDate(y, 0, 0)` by civil-calendar year arithmetic (`addDateYears`),
  including Go's normalisation of Feb 29 to Mar 1 in non-leap years;
* the `int64` serial counter uses two's-complement wraparound (`wrap64`).
-/

namespace AwesomeTLS

/-- The public component of an RSA key.  The mathematical content of the key
is irrelevant to the claims; keys are identified by an abstract identifier,
and carry their modulus size in bits. -/
structure RSAPublicKey where
  keyId : Nat
  bits : Nat
deriving DecidableEq, Repr

/-- An RSA private key (`*rsa.PrivateKey`); `pub` is its public component,
i.e. what `priv.Public()` returns in Go. -/
structure RSAPrivateKey where
  pub : RSAPublicKey
deriving DecidableEq, Repr

/-- `x509.KeyUsageDigitalSignature`. -/
def KeyUsageDigitalSignature : Nat := 1
/-- `x509.KeyUsageKeyEncipherment`. -/
def KeyUsageKeyEncipherment : Nat := 4
/-- `x509.KeyUsageCertSign`. -/
def KeyUsageCertSign : Nat := 32

/-- `x509.ExtKeyUsage` values (only the ones relevant here). -/
inductive ExtKeyUsage where
  | serverAuth
  | clientAuth
deriving DecidableEq, Repr

/-- `pkix.Name` (the fields the program sets). -/
structure PkixName where
  commonName : String
  organization : List String
deriving DecidableEq, Repr

/-- A parsed X.509 certificate (`*x509.Certificate`), restricted to the
fields the program reads or writes. -/
structure Certificate where
  serialNumber : Int
  subject : PkixName
  issuer : PkixName
  subjectKeyId : List Nat
  keyUsage : Nat
  extKeyUsage : List ExtKeyUsage
  basicConstraintsValid : Bool
  notBefore : Int
  notAfter : Int
  dnsNames : List String
  isCA : Bool
  publicKey : RSAPublicKey
deriving DecidableEq, Repr

/-- The certificate template the program builds (`tmpl` in
`NewCertificateAuthority`): an `x509.Certificate` whose issuer and public key
are not yet filled in. -/
structure CertTemplate where
  serialNumber : Int
  subject : PkixName
  subjectKeyId : List Nat
  keyUsage : Nat
  extKeyUsage : List ExtKeyUsage
  basicConstraintsValid : Bool
  notBefore : Int
  notAfter : Int
  dnsNames : List String
  isCA : Bool
deriving DecidableEq, Repr

/-- The contents of a DER certificate file, modelled by its parse result:
either bytes that parse to a certificate, or bytes `x509.ParseCertificate`
rejects. -/
inductive CertBytes where
  | wellFormed (c : Certificate)
  | malformed
deriving DecidableEq, Repr

/-- The contents of a DER private-key file, modelled by its parse result:
a PKCS#8 container holding an RSA key, a PKCS#8 container holding a key of
another type, or bytes `x509.ParsePKCS8PrivateKey` rejects. -/
inductive KeyBytes where
  | pkcs8RSA (k : RSAPrivateKey)
  | pkcs8NonRSA
  | malformed
deriving DecidableEq, Repr

/-- A file on disk: absent (`os.ReadFile` yields `os.ErrNotExist`),
unreadable (`os.ReadFile` yields some other error), or present with
contents. -/
inductive FsFile (α : Type) where
  | absent
  | unreadable
  | stored (contents : α)
deriving DecidableEq, Repr

/-- The state the program reads and mutates: the two persisted files and the
process-wide serial counter `currentSerialNumber`. -/
structure State where
  caFile : FsFile CertBytes
  caKeyFile : FsFile KeyBytes
  currentSerialNumber : Int
deriving DecidableEq, Repr

/-- The errors `NewCertificateAuthority` and its helpers can produce, one
constructor per distinct `err` source in the Go code. -/
inductive Err where
  | notExist
  | readFailure
  | certParseFailure
  | keyParseFailure
  | wrongKeyType
  | keyGenFailure
  | marshalPKIXFailure
  | hashWriteFailure
  | createCertFailure
  | certWriteFailure
  | keyMarshalFailure
  | keyWriteFailure
deriving DecidableEq, Repr

/-- The load-path errors: everything `readCertFromDisk` or
`readPrivateKeyFromDisk` can produce. -/
def isLoadErr : Err → Bool
  | .notExist => true
  | .readFailure => true
  | .certParseFailure => true
  | .keyParseFailure => true
  | .wrongKeyType => true
  | _ => false

/-- Environment: outcomes of the external library calls made on the generate
path, in program order.  `generateKey n` is the outcome of
`rsa.GenerateKey(rand.Reader, n)` (`none` = failure); the booleans say
whether the corresponding fallible call succeeds; `now1` and `now2` are the
values of the two `time.Now()` calls in the template (`NotBefore` line and
`NotAfter` line), as Unix seconds. -/
structure Env where
  generateKey : Nat → Option RSAPrivateKey
  marshalPKIXOk : Bool
  hashWriteOk : Bool
  createCertOk : Bool
  marshalPKCS8Ok : Bool
  writeCaFileOk : Bool
  writeCaKeyFileOk : Bool
  now1 : Int
  now2 : Int

/-! ## int64 arithmetic -/

/-- Two's-complement wraparound of an `int64` value. -/
def wrap64 (x : Int) : Int := (x + 2 ^ 63) % 2 ^ 64 - 2 ^ 63

/-- `atomic.AddInt64(&c, d)`: the new (and returned) counter value. -/
def addInt64 (c d : Int) : Int := wrap64 (c + d)

/-- One serial-number allocation: `atomic.AddInt64(&currentSerialNumber, 1)`. -/
def nextSerial (c : Int) : Int := addInt64 c 1

/-! ## Go `Time.AddDate(years, 0, 0)` on Unix seconds

Civil-calendar conversions on days since 1970-01-01 (proleptic Gregorian),
with floor division, so that `addDateYears` matches Go's
`t.AddDate(y, 0, 0)`: same month, day and clock time in year `y + year(t)`,
normalised (Feb 29 of a non-leap year becomes Mar 1). -/

/-- Days since 1970-01-01 of the civil date `(y, m, d)`; total in `d`, so an
out-of-range day (Feb 29 of a non-leap year) normalises forward, exactly as
Go's `time.Date` does. -/
def daysFromCivil (y : Int) (m : Nat) (d : Int) : Int :=
  let yAdj : Int := y - (if m ≤ 2 then 1 else 0)
  let era : Int := Int.fdiv yAdj 400
  let yoe : Int := yAdj - era * 400
  let mp : Int := (m : Int) + (if 2 < m then -3 else 9)
  let doy : Int := Int.fdiv (153 * mp + 2) 5 + d - 1
  let doe : Int := yoe * 365 + Int.fdiv yoe 4 - Int.fdiv yoe 100 + doy
  era * 146097 + doe - 719468

/-- Civil date `(year, month, day)` of a days-since-epoch count. -/
def civilFromDays (z : Int) : Int × Nat × Int :=
  let z' := z + 719468
  let era : Int := Int.fdiv z' 146097
  let doe : Int := z' - era * 146097
  let yoe : Int :=
    Int.fdiv (doe - Int.fdiv doe 1460 + Int.fdiv doe 36524 - Int.fdiv doe 146096) 365
  let doy : Int := doe - (365 * yoe + Int.fdiv yoe 4 - Int.fdiv yoe 100)
  let mp : Int := Int.fdiv (5 * doy + 2) 153
  let d : Int := doy - Int.fdiv (153 * mp + 2) 5 + 1
  let m : Int := mp + (if mp < 10 then 3 else -9)
  let y : Int := yoe + era * 400 + (if m ≤ 2 then 1 else 0)
  (y, m.toNat, d)

/-- `t.AddDate(y, 0, 0)` for `t` in Unix seconds: shift the civil year,
keeping month, day and time of day, with Go's day normalisation. -/
def addDateYears (t : Int) (y : Int) : Int :=
  let days := Int.fdiv t 86400
  let secs := t - days * 86400
  let c := civilFromDays days
  daysFromCivil (c.1 + y) c.2.1 c.2.2 * 86400 + secs

/-! ## ArtifactStore: reads -/

/-- `x509.ParseCertificate`. -/
def parseCertificate : CertBytes → Except Err Certificate
  | .wellFormed c => .ok c
  | .malformed => .error .certParseFailure

/-- `readCertFromDisk(caFile)`: read the bytes of `ca.der`, then parse them. -/
def readCertFromDisk (s : State) : Except Err Certificate :=
  match s.caFile with
  | .absent => .error .notExist
  | .unreadable => .error .readFailure
  | .stored bytes => parseCertificate bytes

/-- `readPrivateKeyFromDisk(caKeyFile)`: read the bytes of `caKey.der`, parse
the PKCS#8 container, and reject a non-RSA key
(`"Pkcs8 contained non-RSA key. Expected RSA key."`). -/
def readPrivateKeyFromDisk (s : State) : Except Err RSAPrivateKey :=
  match s.caKeyFile with
  | .absent => .error .notExist
  | .unreadable => .error .readFailure
  | .stored .malformed => .error .keyParseFailure
  | .stored .pkcs8NonRSA => .error .wrongKeyType
  | .stored (.pkcs8RSA k) => .ok k

/-- The load attempt of `NewCertificateAuthority` as one function: `some`
exactly when both reads succeed (the early-return case of the Go code). -/
def loadCA (s : State) : Option (Certificate × RSAPrivateKey) :=
  match readCertFromDisk s with
  | .error _ => none
  | .ok c =>
    match readPrivateKeyFromDisk s with
    | .error _ => none
    | .ok k => some (c, k)

/-! ## CAGenerator and persistence -/

/-- `x509.MarshalPKIXPublicKey`: the DER encoding of a public key, modelled
as an abstract byte list determined by the key. -/
def marshalPKIXPublicKey (pub : RSAPublicKey) : List Nat :=
  [pub.keyId, pub.bits]

/-- The SHA-1 digest used for the subject key identifier, modelled as an
abstract deterministic function of the input bytes. -/
def sha1Sum (bytes : List Nat) : List Nat := bytes

/-- The certificate template the program builds (lines 111–125), given the
allocated serial number, the key identifier and the two `time.Now()`
values. -/
def mkTemplate (serial : Int) (keyID : List Nat) (now1 now2 : Int) : CertTemplate where
  serialNumber := serial
  subject := { commonName := "Awesome TLS", organization := ["Sleeyax"] }
  subjectKeyId := keyID
  keyUsage := KeyUsageKeyEncipherment ||| KeyUsageDigitalSignature ||| KeyUsageCertSign
  extKeyUsage := [.serverAuth]
  basicConstraintsValid := true
  notBefore := addDateYears now1 (-1)
  notAfter := addDateYears now2 1
  dnsNames := ["awesometls", "localhost"]
  isCA := true

/-- `x509.CreateCertificate(rand, tmpl, parent, pub, priv)`: the structured
content of the produced DER bytes — the template's fields, the parent's
subject as issuer, and the given public key embedded. -/
def createCertificate (tmpl parent : CertTemplate) (pub : RSAPublicKey) : Certificate where
  serialNumber := tmpl.serialNumber
  subject := tmpl.subject
  issuer := parent.subject
  subjectKeyId := tmpl.subjectKeyId
  keyUsage := tmpl.keyUsage
  extKeyUsage := tmpl.extKeyUsage
  basicConstraintsValid := tmpl.basicConstraintsValid
  notBefore := tmpl.notBefore
  notAfter := tmpl.notAfter
  dnsNames := tmpl.dnsNames
  isCA := tmpl.isCA
  publicKey := pub

/-- The generate-and-persist path of `NewCertificateAuthority`
(lines 88–153): generate a 2048-bit RSA key, derive the subject key
identifier, allocate a serial number, build and self-sign the template,
write `ca.der`, marshal and write `caKey.der`, reparse the raw bytes and
return.  Every fallible step returns its error with the state reached so
far. -/
def generatePath (env : Env) (s : State) :
    Except Err (Certificate × RSAPrivateKey) × State :=
  match env.generateKey 2048 with
  | none => (.error .keyGenFailure, s)
  | some priv =>
    let pub := priv.pub
    if env.marshalPKIXOk = false then (.error .marshalPKIXFailure, s)
    else
      let pkixpub := marshalPKIXPublicKey pub
      if env.hashWriteOk = false then (.error .hashWriteFailure, s)
      else
        let keyID := sha1Sum pkixpub
        let serial := nextSerial s.currentSerialNumber
        let s1 := { s with currentSerialNumber := serial }
        let tmpl := mkTemplate serial keyID env.now1 env.now2
        if env.createCertOk = false then (.error .createCertFailure, s1)
        else
          let raw : CertBytes := .wellFormed (createCertificate tmpl tmpl pub)
          if env.writeCaFileOk = false then (.error .certWriteFailure, s1)
          else
            let s2 := { s1 with caFile := .stored raw }
            if env.marshalPKCS8Ok = false then (.error .keyMarshalFailure, s2)
            else if env.writeCaKeyFileOk = false then (.error .keyWriteFailure, s2)
            else
              let s3 := { s2 with caKeyFile := .stored (.pkcs8RSA priv) }
              match parseCertificate raw with
              | .error e => (.error e, s3)
              | .ok x509c => (.ok (x509c, priv), s3)

/-- `NewCertificateAuthority`: try to load the certificate and the private
key from disk; on success return them unchanged; on any load failure
(the code only logs a diagnostic) fall through to the generate path. -/
def NewCertificateAuthority (env : Env) (s : State) :
    Except Err (Certificate × RSAPrivateKey) × State :=
  match readCertFromDisk s with
  | .ok certFromDisk =>
    match readPrivateKeyFromDisk s with
    | .ok keyFromDisk => (.ok (certFromDisk, keyFromDisk), s)
    | .error _ => generatePath env s
  | .error _ => generatePath env s

/-! ## StorageLocator: `getAbsoluteFilePath` -/

/-- Go's `path.Join` on two clean, non-empty, relative/absolute segments as
used by the program: joins with a slash. -/
def pathJoin (a b : String) : String := a ++ "/" ++ b

/-- The filesystem and platform facts `getAbsoluteFilePath` interacts with:
the result of `os.UserConfigDir()` (`none` = error) and the set of existing
directories. -/
structure PathEnv where
  userConfigDir : Option String
  dirs : List String
deriving DecidableEq, Repr

/-- `os.Mkdir(dir, 0o700)` where `parent` is `dir`'s parent directory: the
directory is created only when its parent exists and it does not already
exist; in every other case (already exists, parent missing) nothing changes.
The caller ignores the returned error, so only the state effect is
modelled. -/
def osMkdir (fs : PathEnv) (parent dir : String) : PathEnv :=
  if parent ∈ fs.dirs ∧ dir ∉ fs.dirs then { fs with dirs := dir :: fs.dirs }
  else fs

/-- `getAbsoluteFilePath(file)`: under a resolvable user config directory,
join it with the fixed `"burp-awesome-tls"` segment, attempt to create that
directory ignoring any error, and return the joined path; otherwise return
the bare filename. -/
def getAbsoluteFilePath (fs : PathEnv) (file : String) : String × PathEnv :=
  match fs.userConfigDir with
  | some userConfigDir =>
    let configDir := pathJoin userConfigDir "burp-awesome-tls"
    let fs1 := osMkdir fs userConfigDir configDir
    (pathJoin configDir file, fs1)
  | none => (file, fs)

/-! ## Derived definitions used by the theorems -/

instance {ε α : Type} [DecidableEq ε] [DecidableEq α] : DecidableEq (Except ε α) := fun a b =>
  match a, b with
  | .error e1, .error e2 =>
    if h : e1 = e2 then .isTrue (h ▸ rfl) else .isFalse (fun hc => h (Except.error.inj hc))
  | .error _, .ok _ => .isFalse Except.noConfusion
  | .ok _, .error _ => .isFalse Except.noConfusion
  | .ok a1, .ok a2 =>
    if h : a1 = a2 then .isTrue (h ▸ rfl) else .isFalse (fun hc => h (Except.ok.inj hc))

/-- The certificate the generate path produces from a generated key and an
allocated serial number (the template self-signed against itself). -/
def generatedCert (env : Env) (priv : RSAPrivateKey) (serial : Int) : Certificate :=
  let tmpl := mkTemplate serial (sha1Sum (marshalPKIXPublicKey priv.pub)) env.now1 env.now2
  createCertificate tmpl tmpl priv.pub

/-- The values returned by `n` consecutive serial-number allocations starting
from counter value `seed`.  Each allocation is a single indivisible
`atomic.AddInt64`, so every concurrent schedule of `n` allocating threads is
exactly some sequence of these indivisible increments; the trace therefore
covers all concurrent executions. -/
def serialTrace (seed : Int) (n : Nat) : List Int :=
  (List.range n).map (fun i => nextSerial^[i + 1] seed)

/-! ## Concrete example inputs used by counterexamples and witnesses -/

/-- An example public key. -/
def pubA : RSAPublicKey := { keyId := 1, bits := 2048 }

/-- A second, different public key. -/
def pubB : RSAPublicKey := { keyId := 2, bits := 2048 }

/-- A private key whose public component is `pubA`. -/
def keyA : RSAPrivateKey := { pub := pubA }

/-- A private key whose public component is `pubB`. -/
def keyB : RSAPrivateKey := { pub := pubB }

/-- An example well-formed persisted certificate embedding `pubA`. -/
def certA : Certificate where
  serialNumber := 41
  subject := { commonName := "Awesome TLS", organization := ["Sleeyax"] }
  issuer := { commonName := "Awesome TLS", organization := ["Sleeyax"] }
  subjectKeyId := [1, 2048]
  keyUsage := 37
  extKeyUsage := [.serverAuth]
  basicConstraintsValid := true
  notBefore := 1668464000
  notAfter := 1731622400
  dnsNames := ["awesometls", "localhost"]
  isCA := true
  publicKey := pubA

/-- An environment in which every external call succeeds;
`rsa.GenerateKey` returns a fresh key of the requested size, and both
`time.Now()` calls read 1700000000 (2023-11-14 22:13:20 UTC). -/
def envT : Env where
  generateKey := fun n => some { pub := { keyId := 7, bits := n } }
  marshalPKIXOk := true
  hashWriteOk := true
  createCertOk := true
  marshalPKCS8Ok := true
  writeCaFileOk := true
  writeCaKeyFileOk := true
  now1 := 1700000000
  now2 := 1700000000

/-- The key `envT.generateKey 2048` produces. -/
def keyT : RSAPrivateKey := { pub := { keyId := 7, bits := 2048 } }

/-- Like `envT` but the `ca.der` write fails. -/
def envCertWFail : Env := { envT with writeCaFileOk := false }

/-- Like `envT` but the `caKey.der` write fails. -/
def envKeyWFail : Env := { envT with writeCaKeyFileOk := false }

/-- Like `envT` but `rsa.GenerateKey` fails. -/
def envKeyGenFail : Env := { envT with generateKey := fun _ => none }

/-- First-run state: neither file exists. -/
def sEmpty : State :=
  { caFile := .absent, caKeyFile := .absent, currentSerialNumber := 1700000000 }

/-- Populated state: a valid certificate and its matching private key. -/
def sValid : State :=
  { caFile := .stored (.wellFormed certA), caKeyFile := .stored (.pkcs8RSA keyA),
    currentSerialNumber := 1700000000 }

/-- Populated state whose certificate embeds `pubA` while the stored private
key has public component `pubB`. -/
def sMismatch : State :=
  { caFile := .stored (.wellFormed certA), caKeyFile := .stored (.pkcs8RSA keyB),
    currentSerialNumber := 1700000000 }

/-- State whose key file holds a PKCS#8 container with a non-RSA key. -/
def sNonRSA : State :=
  { caFile := .absent, caKeyFile := .stored .pkcs8NonRSA, currentSerialNumber := 1700000000 }

/-- State with a corrupt certificate file and an intact old key file. -/
def sCorrupt : State :=
  { caFile := .stored .malformed, caKeyFile := .stored (.pkcs8RSA keyB),
    currentSerialNumber := 1700000000 }

/-- The certificate `envT` generates from `sEmpty` (serial 1700000001). -/
def certT : Certificate := generatedCert envT keyT 1700000001

/-- The state after a successful generate run of `envT` from `sEmpty`. -/
def sT2 : State :=
  { caFile := .stored (.wellFormed certT), caKeyFile := .stored (.pkcs8RSA keyT),
    currentSerialNumber := 1700000001 }

/-- Platform state in which the user config directory resolves but does not
exist on disk. -/
def fsNoCfgDir : PathEnv := { userConfigDir := some "/home/user/.config", dirs := [] }

/-- Platform state in which the user config directory resolves and exists. -/
def fsCfg : PathEnv :=
  { userConfigDir := some "/home/user/.config", dirs := ["/home/user/.config"] }

/-! ## Helper lemmas -/

/-- Wraparound is the identity on in-range `int64` values. -/
theorem wrap64_eq_of_lt {x : Int} (h1 : -(2 ^ 63) ≤ x) (h2 : x < 2 ^ 63) :
    wrap64 x = x := by
  have hx0 : (0 : Int) ≤ x + 2 ^ 63 := by linarith
  have h64 : (2 : Int) ^ 64 = 2 ^ 63 + 2 ^ 63 := by norm_num
  have hx1 : x + 2 ^ 63 < 2 ^ 64 := by linarith
  unfold wrap64
  rw [Int.emod_eq_of_lt hx0 hx1]
  ring

/-- When the load attempt fails, the bootstrap is the generate path. -/
theorem load_none_eq_generate (env : Env) (s : State) (h : loadCA s = none) :
    NewCertificateAuthority env s = generatePath env s := by
  unfold loadCA at h
  unfold NewCertificateAuthority
  cases hc : readCertFromDisk s with
  | error e => rfl
  | ok c =>
    rw [hc] at h
    cases hk : readPrivateKeyFromDisk s with
    | error e => rfl
    | ok k => rw [hk] at h; simp at h

/-- When both reads succeed, the bootstrap returns the loaded pair and
leaves the state untouched. -/
theorem load_ok_returns (env : Env) (s : State) (c : Certificate) (k : RSAPrivateKey)
    (hc : readCertFromDisk s = .ok c) (hk : readPrivateKeyFromDisk s = .ok k) :
    NewCertificateAuthority env s = (.ok (c, k), s) := by
  unfold NewCertificateAuthority
  rw [hc, hk]

/-- Restatement of `load_ok_returns` through `loadCA`. -/
theorem load_some_returns (env : Env) (s : State) (c : Certificate) (k : RSAPrivateKey)
    (h : loadCA s = some (c, k)) : NewCertificateAuthority env s = (.ok (c, k), s) := by
  unfold loadCA at h
  cases hc : readCertFromDisk s with
  | error e => rw [hc] at h; cases h
  | ok c2 =>
    rw [hc] at h
    cases hk : readPrivateKeyFromDisk s with
    | error e => rw [hk] at h; cases h
    | ok k2 =>
      rw [hk] at h
      simp at h
      obtain ⟨rfl, rfl⟩ := h
      exact load_ok_returns env s c2 k2 hc hk

/-- Every error the generate path can produce is a generate/persist-path
error, never a load-path error. -/
theorem generatePath_error_not_load (env : Env) (s : State) (e : Err)
    (h : (generatePath env s).1 = .error e) : isLoadErr e = false := by
  unfold generatePath at h
  rcases hgk : env.generateKey 2048 with _ | priv <;> rw [hgk] at h <;>
  cases hm1 : env.marshalPKIXOk <;> cases hhw : env.hashWriteOk <;>
  cases hcc : env.createCertOk <;> cases hm2 : env.marshalPKCS8Ok <;>
  cases hw1 : env.writeCaFileOk <;> cases hw2 : env.writeCaKeyFileOk <;>
  simp_all [parseCertificate] <;> simp [← h, isLoadErr]

/-- A successful generate run returns exactly the generated certificate and
key, and overwrites both files while bumping the serial counter. -/
theorem generatePath_ok_charac (env : Env) (s : State) (cert : Certificate)
    (key : RSAPrivateKey) (s2 : State)
    (h : generatePath env s = (.ok (cert, key), s2)) :
    env.generateKey 2048 = some key ∧
    cert = generatedCert env key (nextSerial s.currentSerialNumber) ∧
    s2 = { s with currentSerialNumber := nextSerial s.currentSerialNumber,
                  caFile := .stored (.wellFormed cert),
                  caKeyFile := .stored (.pkcs8RSA key) } := by
  unfold generatePath at h
  rcases hgk : env.generateKey 2048 with _ | priv <;> rw [hgk] at h <;>
  cases hm1 : env.marshalPKIXOk <;> cases hhw : env.hashWriteOk <;>
  cases hcc : env.createCertOk <;> cases hm2 : env.marshalPKCS8Ok <;>
  cases hw1 : env.writeCaFileOk <;> cases hw2 : env.writeCaKeyFileOk <;>
  simp_all [parseCertificate, generatedCert] <;>
  (obtain ⟨⟨hc, hk⟩, hs⟩ := h; subst hk; subst hc; subst hs; exact ⟨rfl, rfl⟩)

/-- In-range iterated allocations add one per call. -/
theorem iterate_nextSerial_eq (seed : Int) (h0 : -(2 ^ 63) ≤ seed) :
    ∀ k : Nat, seed + k < 2 ^ 63 → nextSerial^[k] seed = seed + k := by
  intro k
  induction k with
  | zero => intro _; simp
  | succ m ih =>
    intro hk
    have hm : seed + m < 2 ^ 63 := by
      push_cast at hk
      linarith
    rw [Function.iterate_succ_apply', ih hm]
    unfold nextSerial addInt64
    rw [wrap64_eq_of_lt (by have := Int.natCast_nonneg m; linarith)
      (by push_cast at hk; linarith)]
    push_cast
    ring

/-! ## Claims -/

/-- C1 counterexample: on a state whose stored certificate embeds `pubA`
while the stored private key has the different public component `pubB`, the
bootstrap returns the mismatched pair with the state unchanged — it does not
treat the mismatch as a load failure and does not regenerate.  This refutes
the claim as stated. -/
theorem C1_counterexample_mismatch_returned :
    certA.publicKey ≠ keyB.pub ∧
    NewCertificateAuthority envT sMismatch = (.ok (certA, keyB), sMismatch) := by decide

/-- C1 (amended): whenever both persisted files load successfully, the
bootstrap returns the loaded pair unchanged, performing no validation that
the certificate's embedded public key matches the private key's public
component; a mismatched pair is returned as loaded. -/
theorem C1_loaded_pair_returned_without_validation (env : Env) (s : State)
    (c : Certificate) (k : RSAPrivateKey)
    (hc : readCertFromDisk s = .ok c) (hk : readPrivateKeyFromDisk s = .ok k) :
    NewCertificateAuthority env s = (.ok (c, k), s) :=
  load_ok_returns env s c k hc hk

/-- C1 witness: the amended theorem applied to the concrete mismatched
state. -/
theorem C1_witness :
    NewCertificateAuthority envT sMismatch = (.ok (certA, keyB), sMismatch) :=
  C1_loaded_pair_returned_without_validation envT sMismatch certA keyB (by decide) (by decide)

/-- C2: on a state whose certificate file and RSA private-key file both load
successfully, two sequential bootstrap calls return identical pairs (hence
the same serial number and validity window), and neither call changes the
state — no regeneration, no rewrite of the artifacts, no counter bump. -/
theorem C2_bootstrap_idempotent (env1 env2 : Env) (s : State)
    (c : Certificate) (k : RSAPrivateKey)
    (hc : readCertFromDisk s = .ok c) (hk : readPrivateKeyFromDisk s = .ok k) :
    NewCertificateAuthority env1 s = (.ok (c, k), s) ∧
    NewCertificateAuthority env2 (NewCertificateAuthority env1 s).2 = (.ok (c, k), s) := by
  have h1 := load_ok_returns env1 s c k hc hk
  have h2 := load_ok_returns env2 s c k hc hk
  refine ⟨h1, ?_⟩
  rw [h1]
  exact h2

/-- C2 witness: idempotence at the concrete populated state `sValid`. -/
theorem C2_witness :
    NewCertificateAuthority envT sValid = (.ok (certA, keyA), sValid) ∧
    NewCertificateAuthority envT (NewCertificateAuthority envT sValid).2 =
      (.ok (certA, keyA), sValid) :=
  C2_bootstrap_idempotent envT envT sValid certA keyA (by decide) (by decide)

/-- C3: whenever the load attempt fails in any way (file missing, unreadable,
unparsable, wrong key type), the bootstrap proceeds to the generate path; and
any error the bootstrap ever returns is a generate/persist-path error, never
one of the load-path errors. -/
theorem C3_load_errors_never_returned (env : Env) (s : State) :
    (loadCA s = none → NewCertificateAuthority env s = generatePath env s) ∧
    ∀ e, (NewCertificateAuthority env s).1 = .error e → isLoadErr e = false := by
  refine ⟨load_none_eq_generate env s, ?_⟩
  intro e he
  rcases hl : loadCA s with _ | ⟨c, k⟩
  · rw [load_none_eq_generate env s hl] at he
    exact generatePath_error_not_load env s e he
  · rw [load_some_returns env s c k hl] at he
    cases he

/-- C3 witness: the first-run state proceeds to generation, and a failing
key generation surfaces `keyGenFailure`, which is not a load error. -/
theorem C3_witness :
    NewCertificateAuthority envT sEmpty = generatePath envT sEmpty ∧
    isLoadErr Err.keyGenFailure = false :=
  ⟨(C3_load_errors_never_returned envT sEmpty).1 (by decide),
   (C3_load_errors_never_returned envKeyGenFail sEmpty).2 Err.keyGenFailure (by decide)⟩

/-- C4: on the generate path the certificate is persisted first and the key
second: when the certificate write fails the call returns an error with
neither file changed (the key write is never attempted), and when the
certificate write succeeds but the key write fails the call returns an error
with the certificate file already overwritten; in both cases no pair is
returned. -/
theorem C4_persist_order_and_failure (env : Env) (s : State) (priv : RSAPrivateKey)
    (hload : loadCA s = none)
    (hgk : env.generateKey 2048 = some priv)
    (hm1 : env.marshalPKIXOk = true) (hhw : env.hashWriteOk = true)
    (hcc : env.createCertOk = true) :
    (env.writeCaFileOk = false →
      NewCertificateAuthority env s =
        (.error .certWriteFailure,
         { s with currentSerialNumber := nextSerial s.currentSerialNumber })) ∧
    (env.writeCaFileOk = true → env.marshalPKCS8Ok = true → env.writeCaKeyFileOk = false →
      NewCertificateAuthority env s =
        (.error .keyWriteFailure,
         { s with currentSerialNumber := nextSerial s.currentSerialNumber,
                  caFile := .stored (.wellFormed
                    (generatedCert env priv (nextSerial s.currentSerialNumber))) })) := by
  rw [load_none_eq_generate env s hload]
  constructor
  · intro hw1
    simp [generatePath, hgk, hm1, hhw, hcc, hw1, generatedCert, mkTemplate, createCertificate]
  · intro hw1 hm2 hw2
    simp [generatePath, hgk, hm1, hhw, hcc, hw1, hm2, hw2, generatedCert, mkTemplate,
      createCertificate]

/-- C4 witness: a failing certificate write on the first run returns
`certWriteFailure` and leaves both files untouched. -/
theorem C4_witness :
    NewCertificateAuthority envCertWFail sEmpty =
      (.error .certWriteFailure,
       { sEmpty with currentSerialNumber := nextSerial sEmpty.currentSerialNumber }) :=
  (C4_persist_order_and_failure envCertWFail sEmpty keyT (by decide) rfl rfl rfl rfl).1 rfl

/-- C5: modelling each allocation as the indivisible `atomic.AddInt64`
increment it is (so that any concurrent schedule of N allocating threads is
some sequential trace of the increments), a trace of n allocations from a
nonnegative seed is strictly increasing — every allocation exceeds all
previously returned values — and its n values are pairwise distinct, as long
as the `int64` counter does not overflow (`seed + n < 2^63`; the seed is a
Unix timestamp, so this holds for every physically realizable run). -/
theorem C5_serials_strictly_increasing_and_distinct (seed : Int) (n : Nat)
    (h0 : 0 ≤ seed) (hn : seed + n < 2 ^ 63) :
    List.Pairwise (fun a b => a < b) (serialTrace seed n) ∧
    (serialTrace seed n).Nodup ∧
    (serialTrace seed n).length = n := by
  have hneg : -(2 ^ 63) ≤ seed := by
    have : (0 : Int) < 2 ^ 63 := by norm_num
    linarith
  have htr : serialTrace seed n = (List.range n).map (fun i : Nat => seed + (i : Int) + 1) := by
    unfold serialTrace
    apply List.map_congr_left
    intro i hi
    have hi2 : i < n := List.mem_range.mp hi
    have hlt : seed + ((i + 1 : Nat) : Int) < 2 ^ 63 := by
      have : ((i : Int) + 1) ≤ (n : Int) := by exact_mod_cast hi2
      push_cast
      linarith
    rw [iterate_nextSerial_eq seed hneg (i + 1) hlt]
    push_cast
    ring
  rw [htr]
  refine ⟨?_, ?_, by simp⟩
  · refine List.Pairwise.map _ ?_ (List.pairwise_lt_range n)
    intro a b hab
    dsimp only
    omega
  · refine List.Nodup.map ?_ (List.nodup_range n)
    intro a b hab
    dsimp only at hab
    omega

/-- C5 witness: three allocations from seed 1700000000. -/
theorem C5_witness :
    List.Pairwise (fun a b => a < b) (serialTrace 1700000000 3) ∧
    (serialTrace 1700000000 3).Nodup ∧
    (serialTrace 1700000000 3).length = 3 :=
  C5_serials_strictly_increasing_and_distinct 1700000000 3 (by norm_num) (by norm_num)

/-- C6: for every freshly generated certificate, if the two `time.Now()`
reads during template construction coincide (value `g`, the generation
timestamp — the tolerance in the claim exists only to absorb drift between
these reads), then `notBefore` is exactly the generation time minus one
calendar year and `notAfter` exactly the generation time plus one calendar
year, Go `AddDate` semantics. -/
theorem C6_validity_window (env : Env) (s : State) (cert : Certificate)
    (key : RSAPrivateKey) (s2 : State)
    (hload : loadCA s = none) (hclock : env.now2 = env.now1)
    (hok : NewCertificateAuthority env s = (.ok (cert, key), s2)) :
    cert.notBefore = addDateYears env.now1 (-1) ∧
    cert.notAfter = addDateYears env.now1 1 := by
  rw [load_none_eq_generate env s hload] at hok
  obtain ⟨-, hcert, -⟩ := generatePath_ok_charac env s cert key s2 hok
  subst hcert
  constructor <;> simp [generatedCert, mkTemplate, createCertificate, hclock]

/-- C6 witness: the validity window of the concrete generated certificate
`certT` (generated at Unix time 1700000000). -/
theorem C6_witness :
    certT.notBefore = addDateYears envT.now1 (-1) ∧
    certT.notAfter = addDateYears envT.now1 1 :=
  C6_validity_window envT sEmpty certT keyT sT2 (by decide) rfl (by decide)

/-- C7: every freshly generated certificate is self-signed (issuer equals
subject), is a CA with valid basic constraints, has key usage exactly
certificate-signing + key-encipherment + digital-signature, extended key
usage exactly server authentication, the fixed DNS name set, and embeds the
public component of the returned private key, which (by the `rsa.GenerateKey`
contract, taken as a hypothesis on the environment) is 2048-bit. -/
theorem C7_generated_certificate_shape (env : Env) (s : State) (cert : Certificate)
    (key : RSAPrivateKey) (s2 : State)
    (hbits : ∀ n k, env.generateKey n = some k → k.pub.bits = n)
    (hload : loadCA s = none)
    (hok : NewCertificateAuthority env s = (.ok (cert, key), s2)) :
    cert.issuer = cert.subject ∧
    cert.isCA = true ∧
    cert.basicConstraintsValid = true ∧
    cert.keyUsage = (KeyUsageCertSign ||| KeyUsageKeyEncipherment ||| KeyUsageDigitalSignature) ∧
    cert.extKeyUsage = [ExtKeyUsage.serverAuth] ∧
    cert.dnsNames = ["awesometls", "localhost"] ∧
    cert.publicKey = key.pub ∧
    key.pub.bits = 2048 := by
  rw [load_none_eq_generate env s hload] at hok
  obtain ⟨hgk, hcert, -⟩ := generatePath_ok_charac env s cert key s2 hok
  subst hcert
  refine ⟨rfl, rfl, rfl, ?_, rfl, rfl, rfl, hbits 2048 key hgk⟩
  simp only [generatedCert, mkTemplate, createCertificate, KeyUsageKeyEncipherment,
    KeyUsageDigitalSignature, KeyUsageCertSign]
  decide

/-- C7 witness: the shape of the concrete generated certificate `certT`. -/
theorem C7_witness :
    certT.issuer = certT.subject ∧
    certT.isCA = true ∧
    certT.basicConstraintsValid = true ∧
    certT.keyUsage = (KeyUsageCertSign ||| KeyUsageKeyEncipherment ||| KeyUsageDigitalSignature) ∧
    certT.extKeyUsage = [ExtKeyUsage.serverAuth] ∧
    certT.dnsNames = ["awesometls", "localhost"] ∧
    certT.publicKey = keyT.pub ∧
    keyT.pub.bits = 2048 :=
  C7_generated_certificate_shape envT sEmpty certT keyT sT2
    (by intro n k h; injection h with h; subst h; rfl) (by decide) (by decide)

/-- C8: a key file whose bytes decode as a PKCS#8 container holding a
non-RSA key makes `readPrivateKeyFromDisk` return the distinct wrong-key-type
error; since the result is that error, no key value is ever returned. -/
theorem C8_nonRSA_key_rejected (s : State)
    (h : s.caKeyFile = .stored .pkcs8NonRSA) :
    readPrivateKeyFromDisk s = .error .wrongKeyType := by
  unfold readPrivateKeyFromDisk
  rw [h]

/-- C8 witness: the concrete non-RSA key file state. -/
theorem C8_witness :
    readPrivateKeyFromDisk sNonRSA = .error .wrongKeyType :=
  C8_nonRSA_key_rejected sNonRSA rfl

/-- C9 counterexample: when the user config directory resolves but does not
itself exist, `getAbsoluteFilePath` still returns the joined path while the
namespace directory does not exist afterwards — `os.Mkdir` (not `MkdirAll`)
fails on the missing parent and the error is ignored, so the operation does
not ensure the directory exists, refuting the claim as stated. -/
theorem C9_counterexample_mkdir_not_ensured :
    (getAbsoluteFilePath fsNoCfgDir "ca.der").1 =
      pathJoin (pathJoin "/home/user/.config" "burp-awesome-tls") "ca.der" ∧
    pathJoin "/home/user/.config" "burp-awesome-tls" ∉
      (getAbsoluteFilePath fsNoCfgDir "ca.der").2.dirs := by decide

/-- C9 (amended): for every filename, path resolution returns the user
configuration directory joined with the fixed application namespace and the
filename, creating the namespace directory idempotently while ignoring every
`Mkdir` error — so the directory is guaranteed to exist afterwards provided
the user configuration directory itself exists; when the user-scoped
directory cannot be determined it returns the bare filename unchanged; the
operation never fails. -/
theorem C9_path_resolution (fs : PathEnv) (file : String) :
    (∀ d, fs.userConfigDir = some d →
      (getAbsoluteFilePath fs file).1 = pathJoin (pathJoin d "burp-awesome-tls") file ∧
      (d ∈ fs.dirs → pathJoin d "burp-awesome-tls" ∈ (getAbsoluteFilePath fs file).2.dirs)) ∧
    (fs.userConfigDir = none → getAbsoluteFilePath fs file = (file, fs)) := by
  constructor
  · intro d hd
    constructor
    · simp [getAbsoluteFilePath, hd]
    · intro hmem
      simp only [getAbsoluteFilePath, hd]
      unfold osMkdir
      by_cases hin : pathJoin d "burp-awesome-tls" ∈ fs.dirs
      · simp [hin]
      · simp [hin, hmem]
  · intro hn
    simp only [getAbsoluteFilePath, hn]

/-- C9 witness: with an existing user config directory, the joined path is
returned and the namespace directory exists afterwards. -/
theorem C9_witness :
    (getAbsoluteFilePath fsCfg "ca.der").1 =
      pathJoin (pathJoin "/home/user/.config" "burp-awesome-tls") "ca.der" ∧
    pathJoin "/home/user/.config" "burp-awesome-tls" ∈
      (getAbsoluteFilePath fsCfg "ca.der").2.dirs := by
  have h := (C9_path_resolution fsCfg "ca.der").1 "/home/user/.config" rfl
  exact ⟨h.1, h.2 (by decide)⟩

/-- C10: persistence is not atomic: a concrete execution in which the
certificate write succeeds but the key write fails returns an error while the
certificate file has already been overwritten with the new certificate bytes
and the key file still holds the old key, whose public component does not
match the newly stored certificate — the two files are left mutually
inconsistent. -/
theorem C10_nonatomic_persist_concrete :
    (NewCertificateAuthority envKeyWFail sCorrupt).1 = .error .keyWriteFailure ∧
    (NewCertificateAuthority envKeyWFail sCorrupt).2.caFile =
      .stored (.wellFormed (generatedCert envKeyWFail keyT
        (nextSerial sCorrupt.currentSerialNumber))) ∧
    (NewCertificateAuthority envKeyWFail sCorrupt).2.caFile ≠ sCorrupt.caFile ∧
    (NewCertificateAuthority envKeyWFail sCorrupt).2.caKeyFile = sCorrupt.caKeyFile ∧
    sCorrupt.caKeyFile = .stored (.pkcs8RSA keyB) ∧
    (generatedCert envKeyWFail keyT (nextSerial sCorrupt.currentSerialNumber)).publicKey ≠
      keyB.pub := by decide

end AwesomeTLS
